import Mathlib

/-!
Verification of the Home.InfoPoint scraping engine
(`custom_components/home_infopoint/api.py` and
`custom_components/home-infopoint/sensor.py`).

The HTML parser (BeautifulSoup) is the model boundary: a parsed page is
represented by the query results the code actually consumes (the ordered
stream of heading/table elements, each table's stripped cell texts, header
cell texts and raw text, the page's visible text, and each form input's
attributes).  Python strings are Lean `String`s, Python `int`/`float`
parsing is modelled by explicit partial parsers over the plain decimal
fragment the portal produces (no exponents, underscores or `inf`/`nan`),
and a raised exception is `Option.none`.
-/

/-- Python's substring containment `pat in s`, on character lists:
`strPre pat s` is "`pat` is a prefix of `s`". -/
def strPre : List Char → List Char → Bool
  | [], _ => true
  | _ :: _, [] => false
  | a :: as, b :: bs => a == b && strPre as bs

/-- Predicate `strFind pat s`: `pat` occurs as a contiguous run inside `s`. -/
def strFind (pat : List Char) : List Char → Bool
  | [] => pat.isEmpty
  | c :: rest => strPre pat (c :: rest) || strFind pat rest

/-- Python's `pat in s` for strings (substring containment). -/
def pyIn (pat s : String) : Bool := strFind pat.data s.data

/-- Python's `s.strip(c)` for a single character `c`: remove every leading
and trailing occurrence of `c`. -/
def pyStripChar (c : Char) (s : String) : String :=
  String.mk (((s.data.dropWhile (· == c)).reverse.dropWhile (· == c)).reverse)

/-- Python's no-argument `s.strip()`: remove surrounding whitespace. -/
def pyTrim (s : String) : String :=
  String.mk (((s.data.dropWhile Char.isWhitespace).reverse.dropWhile
    Char.isWhitespace).reverse)

/-- Python's `s.lower()` (ASCII case folding, which covers the names the
portal uses). -/
def pyLower (s : String) : String := String.mk (s.data.map Char.toLower)

/-- Whitespace tokenizer behind Python's no-argument `s.split()`:
split on whitespace runs, dropping empty pieces. -/
def splitWsAux : List Char → List Char → List (List Char)
  | [], acc => if acc.isEmpty then [] else [acc.reverse]
  | c :: rest, acc =>
      if c.isWhitespace then
        if acc.isEmpty then splitWsAux rest []
        else acc.reverse :: splitWsAux rest []
      else splitWsAux rest (c :: acc)

/-- Python's no-argument `s.split()`. -/
def pySplitWs (s : String) : List String := (splitWsAux s.data []).map String.mk

/-- Fuel-indexed scanner behind Python's `s.split(sep)` for a non-empty
separator: split at every non-overlapping occurrence, left to right. -/
def splitSepAux (pat : List Char) : Nat → List Char → List Char → List (List Char)
  | 0, s, acc => [acc.reverse ++ s]
  | fuel + 1, s, acc =>
    match s with
    | [] => [acc.reverse]
    | c :: rest =>
      if strPre pat s ∧ pat ≠ [] then
        acc.reverse :: splitSepAux pat fuel (s.drop pat.length) []
      else
        splitSepAux pat fuel rest (c :: acc)

/-- Python's `s.split(sep)` for a non-empty separator. -/
def pySplitSep (s pat : String) : List String :=
  (splitSepAux pat.data (s.data.length + 1) s.data []).map String.mk

/-- Fuel-indexed scanner behind Python's `s.replace(pat, rep)`: replace
every non-overlapping occurrence, left to right. -/
def replaceAux (pat rep : List Char) : Nat → List Char → List Char
  | 0, s => s
  | fuel + 1, s =>
    match s with
    | [] => []
    | c :: rest =>
      if strPre pat s ∧ pat ≠ [] then
        rep ++ replaceAux pat rep fuel (s.drop pat.length)
      else
        c :: replaceAux pat rep fuel rest

/-- Python's `s.replace(pat, rep)` for a non-empty pattern. -/
def pyReplace (s pat rep : String) : String :=
  String.mk (replaceAux pat.data rep.data (s.data.length + 1) s.data)

/-- Digit-list to number, most significant first (all-digit input). -/
def natOfDigits (l : List Char) : Nat :=
  l.foldl (fun a c => a * 10 + (c.toNat - 48)) 0

/-- Python's `int(s)`: optional surrounding whitespace, optional sign, then
a non-empty run of decimal digits; anything else raises `ValueError`
(modelled as `none`).  (The underscore-separator and non-ASCII digit forms
accepted by CPython do not occur on the portal and are outside the model.) -/
def pyInt (s : String) : Option Int :=
  match (pyTrim s).data with
  | '+' :: ds =>
      if ds ≠ [] ∧ ds.all Char.isDigit then some (natOfDigits ds : Int) else none
  | '-' :: ds =>
      if ds ≠ [] ∧ ds.all Char.isDigit then some (-(natOfDigits ds : Int)) else none
  | ds =>
      if ds ≠ [] ∧ ds.all Char.isDigit then some (natOfDigits ds : Int) else none

/-- One `<input>` element of the login form, holding the three attributes
`authenticate` reads.  `name` is `input_tag.get("name")` (`none` when the
attribute is missing); `type` and `value` are the raw attributes, read in
the code as `get("type", "")` / `get("value", "")`. -/
structure InputTag where
  name : Option String
  type : Option String
  value : Option String

/-- Ordered string-keyed map with Python `dict` semantics for
`d[k] = v`: overwrite in place when the key exists, else append. -/
def dictInsert : List (String × String) → String → String → List (String × String)
  | [], k, v => [(k, v)]
  | p :: rest, k, v => if p.1 = k then (k, v) :: rest else p :: dictInsert rest k v

/-- Python's `k in d` for a dict. -/
def hasKey : List (String × String) → String → Bool
  | [], _ => false
  | p :: rest, k => p.1 == k || hasKey rest k

/-- Dict lookup (first — and only — binding of the key). -/
def lookupKey : List (String × String) → String → Option String
  | [], _ => none
  | p :: rest, k => if p.1 = k then some p.2 else lookupKey rest k

/-- The body of `authenticate`'s field-classification loop for one input
tag (`api.py` lines 56–74): skip nameless (or empty-named) inputs, keep a
submit button's literal value, then classify by case-insensitive substring
rules — username-like names not containing "pass" get the username,
names containing "pass" get the password, anything else keeps its
declared default value. -/
def processInput (username password : String)
    (data : List (String × String)) (tag : InputTag) : List (String × String) :=
  match tag.name with
  | none => data
  | some name =>
    if name = "" then data
    else
      let input_type := pyLower (tag.type.getD "")
      let value := tag.value.getD ""
      if input_type = "submit" then dictInsert data name value
      else if (pyIn "user" (pyLower name) || pyIn "login" (pyLower name))
              && !(pyIn "pass" (pyLower name)) then
        dictInsert data name username
      else if pyIn "pass" (pyLower name) then
        dictInsert data name password
      else
        dictInsert data name value

/-- The fallback block of `authenticate` (`api.py` lines 76–82): three
independent literal-key checks, each inserting one field when its key is
absent. -/
def applyFallback (username password : String)
    (data : List (String × String)) : List (String × String) :=
  let d1 := if !(hasKey data "username") && !(hasKey data "user")
            then dictInsert data "username" username else data
  let d2 := if !(hasKey d1 "password")
            then dictInsert d1 "password" password else d1
  if !(hasKey d2 "login") then dictInsert d2 "login" "Anmelden" else d2

/-- The full POST field map built by `authenticate` from the form's
inputs: the classification fold followed by the fallback block. -/
def buildFormData (username password : String)
    (inputs : List InputTag) : List (String × String) :=
  applyFallback username password (inputs.foldl (processInput username password) [])


/-- Outcome of `authenticate`'s marker checks on the login POST response
(`api.py` lines 93–109): immediate success, immediate failure, or the
fall-through to the follow-up confirmation GET. -/
inductive AuthDecision where
  | success
  | failure
  | followUp
deriving DecidableEq

/-- The ordered marker evaluation `authenticate` performs on the POST
response body and final URL: the logout marker wins first, then the
case-insensitive German failure markers, then the error query parameters,
else the follow-up GET decides. -/
def evalLoginResponse (postText url : String) : AuthDecision :=
  if pyIn "Abmelden" postText || pyIn "Logout" postText then .success
  else
    let lower_text := pyLower postText
    if pyIn "fehler" lower_text || pyIn "falsch" lower_text
        || pyIn "nicht erfolgreich" lower_text then .failure
    else if pyIn "err=" url || pyIn "error=" url then .failure
    else .followUp

/-- Embeds `_check_logged_in` (`api.py` lines 111–118) applied to the fetched
default page's body: strictly the presence of a logout marker. -/
def checkLoggedIn (text : String) : Bool :=
  pyIn "Abmelden" text || pyIn "Logout" text

/-- The boolean `authenticate` returns, as a function of the POST response
body, its final URL, and the body the follow-up confirmation GET would
see. -/
def authenticateResult (postText url followUpText : String) : Bool :=
  match evalLoginResponse postText url with
  | .success => true
  | .failure => false
  | .followUp => checkLoggedIn followUpText

/-- One `<table>` of the data page, as the extractor reads it:
`rawText` is `table.get_text()`, `headersTh` the stripped texts of its
`<th>` cells, `rows` the stripped `<td>` texts of each `<tr>`. -/
structure HTable where
  rawText : String
  headersTh : List String
  rows : List (List String)
deriving DecidableEq

/-- One element of `soup.find_all(['h3', 'b', 'strong', 'table'])`:
a heading-like element's stripped text, or a table. -/
inductive Element where
  | heading (text : String)
  | table (t : HTable)
deriving DecidableEq

/-- The four absence counters in `data["absences"]`. -/
structure Absences where
  days : Int
  unexcused_days : Int
  hours : String
  unexcused_hours : String
deriving DecidableEq

/-- The defaults set before the absence scan (`api.py` lines 153–158). -/
def defaultAbsences : Absences :=
  { days := 0, unexcused_days := 0, hours := "0", unexcused_hours := "0" }

/-- One row of the absence loop (`api.py` lines 165–175): exact label
match on the first cell, `int(...)` on the second for the two day
counters (a raised `ValueError` is `none`), raw text for the two hour
counters. -/
def absenceRow (acc : Absences) (cols : List String) : Option Absences :=
  if cols = [] then some acc
  else if cols.getD 0 "" = "Fehltage" ∧ 1 < cols.length then
    (pyInt (cols.getD 1 "")).map (fun n => { acc with days := n })
  else if cols.getD 0 "" = "Unentschuldigte Fehltage" ∧ 1 < cols.length then
    (pyInt (cols.getD 1 "")).map (fun n => { acc with unexcused_days := n })
  else if cols.getD 0 "" = "Fehlstunden" ∧ 1 < cols.length then
    some { acc with hours := cols.getD 1 "" }
  else if cols.getD 0 "" = "Unentschuldigte Fehlstunden" ∧ 1 < cols.length then
    some { acc with unexcused_hours := cols.getD 1 "" }
  else some acc

/-- The absence scan over one table (`api.py` lines 160–175): rows are
processed only when the table's raw text contains both "Fehltage" and
"Unentschuldigte". -/
def absenceTable (acc : Absences) (t : HTable) : Option Absences :=
  if pyIn "Fehltage" t.rawText && pyIn "Unentschuldigte" t.rawText then
    t.rows.foldlM absenceRow acc
  else some acc

/-- The whole absence pass over the page's tables. -/
def parseAbsences (tables : List HTable) : Option Absences :=
  tables.foldlM absenceTable defaultAbsences

/-- One grade record appended to `data["grades"]`. -/
structure GradeEntry where
  subject : String
  date : String
  grade : String
  comment : String
deriving DecidableEq

/-- One row of a grade table (`api.py` lines 206–221): rows with at least
3 cells and a non-empty grade cell append an entry tagged with the current
subject. -/
def gradeRow (subject : String) (acc : List GradeEntry) (cols : List String) :
    List GradeEntry :=
  if 3 ≤ cols.length then
    let grade_val := cols.getD 1 ""
    if grade_val ≠ "" then
      acc ++ [{ subject := subject, date := cols.getD 0 "",
                grade := grade_val,
                comment := if 2 < cols.length then cols.getD 2 "" else "" }]
    else acc
  else acc

/-- One step of the grades walk (`api.py` lines 190–228) over the
heading/table element stream, carrying the (current subject, grades)
state.  A heading of more than 2 characters not containing
"Notenspiegel", "Endnoten" or "Legende" moves the subject cursor; a table
is processed when a subject is set (Python's `if not current_subject`
also skips an empty-string subject) and its `<th>` texts contain the
exact cells "Zensur" and "Datum"; nothing ever clears the cursor (the
reset is commented out in the source). -/
def gradesStep (st : Option String × List GradeEntry) (el : Element) :
    Option String × List GradeEntry :=
  match el with
  | .heading text =>
      if 2 < text.length ∧ pyIn "Notenspiegel" text = false
          ∧ pyIn "Endnoten" text = false ∧ pyIn "Legende" text = false then
        (some text, st.2)
      else st
  | .table t =>
      match st.1 with
      | none => st
      | some subj =>
          if subj = "" then st
          else if t.headersTh.contains "Zensur" && t.headersTh.contains "Datum" then
            (st.1, t.rows.foldl (gradeRow subj) st.2)
          else st

/-- The whole grades pass: fold the walk over the element stream starting
with no subject and no grades. -/
def runGrades (elements : List Element) : List GradeEntry :=
  (elements.foldl gradesStep (none, [])).2

/-- The whitespace tokens following the first "aktualisiert am" in the
page text (`page_text.split("aktualisiert am")[1].strip().split()`); the
last-update pass (`api.py` lines 142–150) takes the first of these,
reporting "Unknown" via the caught `IndexError` when there is none, and
"Connected" when the page text has no "aktualisiert am" at all. -/
def tokensAfterUpdate (pageText : String) : List String :=
  pySplitWs (pyTrim ((pySplitSep pageText "aktualisiert am").getD 1 ""))

/-- The cleanup applied to the extracted token: strip surrounding double
then single quotes (`Char.ofNat 39` is the apostrophe), truncate at the
first "<". -/
def cleanToken (tok : String) : String :=
  (pySplitSep (pyStripChar (Char.ofNat 39) (pyStripChar '"' tok)) "<").getD 0 ""

def parseLastUpdate (pageText : String) : String :=
  if pyIn "aktualisiert am" pageText then
    match tokensAfterUpdate pageText with
    | [] => "Unknown"
    | tok :: _ => cleanToken tok
  else "Connected"

/-- The parsed data page: its visible text and the ordered heading/table
element stream (`soup.find_all` returns all matching elements in document
order, so the table list used by the absence pass is exactly the tables of
this stream). -/
structure DataPage where
  pageText : String
  elements : List Element

/-- Embeds `soup.find_all("table")`: the page's tables in document order. -/
def pageTables (p : DataPage) : List HTable :=
  p.elements.filterMap (fun el =>
    match el with
    | .table t => some t
    | _ => none)

/-- The dictionary `get_data` returns. -/
structure FetchResult where
  last_update : String
  absences : Absences
  grades : List GradeEntry
deriving DecidableEq

/-- The extraction part of `get_data` (`api.py` lines 132–230) on a parsed
data page: the last-update pass, the absence pass (whose uncaught
`ValueError` aborts the whole call, yielding no result), and the grades
walk. -/
def extractData (p : DataPage) : Option FetchResult :=
  (parseAbsences (pageTables p)).map (fun a =>
    { last_update := parseLastUpdate p.pageText,
      absences := a,
      grades := runGrades p.elements })


/-- Numeric value of an unsigned decimal-digit fragment `ip "." fp` (the
`float` grammar fragment the grade texts use). -/
def decFragQ (ip fp : List Char) : Option ℚ :=
  if ip ++ fp = [] then none
  else if (ip ++ fp).all Char.isDigit then
    some ((natOfDigits ip : ℚ) + (natOfDigits fp : ℚ) / ((10 : ℚ) ^ fp.length))
  else none

/-- Python's `float(s)` on the plain-decimal fragment: optional sign, then
digits with at most one decimal point and at least one digit overall; a
`ValueError` is `none`.  (Exponents, `inf`/`nan` and underscores do not
occur in grade texts and are outside the model; floats are idealized as
exact rationals.) -/
def pyFloatQ (s : String) : Option ℚ :=
  let signedRest : Bool × List Char :=
    match s.data with
    | '+' :: r => (false, r)
    | '-' :: r => (true, r)
    | r => (false, r)
  let q? : Option ℚ :=
    match splitSepAux ['.'] (signedRest.2.length + 1) signedRest.2 [] with
    | [ip] => decFragQ ip []
    | [ip, fp] => decFragQ ip fp
    | _ => none
  q?.map (fun q => if signedRest.1 then -q else q)

/-- Round half to even to an integer (CPython's rounding mode for
`round`). -/
def roundHalfEven (q : ℚ) : ℤ :=
  if q - ⌊q⌋ < 1 / 2 then ⌊q⌋
  else if (1 : ℚ) / 2 < q - ⌊q⌋ then ⌊q⌋ + 1
  else if ⌊q⌋ % 2 = 0 then ⌊q⌋ else ⌊q⌋ + 1

/-- Python's `round(x, 2)`, idealized over exact rationals. -/
def pyRound2 (q : ℚ) : ℚ := (roundHalfEven (q * 100) : ℚ) / 100

/-- The numeric reading of one grade text used by
`HomeInfoPointSubjectSensor.native_value` (`sensor.py` lines 116–128):
`float(g["grade"].replace(",", ".").strip())`, a swallowed `ValueError`
being `none`. -/
def gradeParse (g : GradeEntry) : Option ℚ :=
  pyFloatQ (pyTrim (pyReplace g.grade "," "."))

/-- The subject's entries, in fetched order
(`[g for g in grades if g["subject"] == subject]`). -/
def subjectGrades (grades : List GradeEntry) (subject : String) : List GradeEntry :=
  grades.filter (fun g => g.subject == subject)

/-- The numeric values among a subject's grade texts, in order. -/
def numericVals (grades : List GradeEntry) (subject : String) : List ℚ :=
  (subjectGrades grades subject).filterMap gradeParse

/-- Embeds `HomeInfoPointSubjectSensor.native_value` (`sensor.py` lines 102–134)
as a function of the fetched grades: filter this subject's entries, then
accumulate the parsed values over them, skipping entries that raise
`ValueError`; `None` when no entry (or no numeric entry) exists, else the
accumulated average rounded to 2 decimal places. -/
def subjectNativeValue (grades : List GradeEntry) (subject : String) : Option ℚ :=
  let gs := subjectGrades grades subject
  if gs = [] then none
  else
    let tc := gs.foldl
      (fun (tc : ℚ × Nat) g =>
        match gradeParse g with
        | some v => (tc.1 + v, tc.2 + 1)
        | none => tc)
      ((0 : ℚ), (0 : Nat))
    if tc.2 = 0 then none
    else some (pyRound2 (tc.1 / (tc.2 : ℚ)))

/-- The attribute dictionary `extra_state_attributes` returns
(`sensor.py` lines 136–152). -/
structure SubjectAttributes where
  latest_grade_date : String
  latest_grade_comment : String
  latest_grade_value : String
  history : List GradeEntry
deriving DecidableEq

/-- Embeds `HomeInfoPointSubjectSensor.extra_state_attributes` as a function of
the fetched grades: `none` models the empty dictionary returned when no
entry matches the subject. -/
def extraStateAttributes (grades : List GradeEntry) (subject : String) :
    Option SubjectAttributes :=
  match subjectGrades grades subject with
  | [] => none
  | latest :: rest =>
      some { latest_grade_date := latest.date,
             latest_grade_comment := latest.comment,
             latest_grade_value := latest.grade,
             history := latest :: rest }

lemma hasKey_dictInsert (d : List (String × String)) (k v k' : String) :
    hasKey (dictInsert d k v) k' = ((k == k') || hasKey d k') := by
  induction d with
  | nil => simp [dictInsert, hasKey]
  | cons p rest ih =>
      by_cases h : p.1 = k
      · simp [dictInsert, hasKey, h]
      · simp [dictInsert, hasKey, h, ih]
        cases hk : (k == k') <;> cases hp : (p.1 == k') <;> simp

lemma lookupKey_dictInsert_self (d : List (String × String)) (k v : String) :
    lookupKey (dictInsert d k v) k = some v := by
  induction d with
  | nil => simp [dictInsert, lookupKey]
  | cons p rest ih =>
      by_cases h : p.1 = k
      · simp [dictInsert, lookupKey, h]
      · simp [dictInsert, lookupKey, h, ih]

lemma lookupKey_dictInsert_ne (d : List (String × String)) (k v k' : String)
    (h : k' ≠ k) : lookupKey (dictInsert d k v) k' = lookupKey d k' := by
  induction d with
  | nil => simp [dictInsert, lookupKey, Ne.symm h]
  | cons p rest ih =>
      by_cases hp : p.1 = k'
      · have hpk : p.1 ≠ k := by rw [hp]; exact h
        simp [dictInsert, lookupKey, hpk, hp, h]
      · by_cases hpk : p.1 = k
        · simp [dictInsert, lookupKey, hpk, hp, Ne.symm h]
        · simp [dictInsert, lookupKey, hpk, hp, ih]

lemma foldlM_option_none {α β : Type} (f : α → β → Option α) (l : List β)
    (b : β) (hb : b ∈ l) (hf : ∀ a, f a b = none) :
    ∀ a, l.foldlM f a = none := by
  induction l with
  | nil => cases hb
  | cons x rest ih =>
      intro a
      rcases List.mem_cons.mp hb with h | h
      · subst h
        simp [List.foldlM, hf a]
      · cases hx : f a x with
        | none => simp [List.foldlM, hx]
        | some a' => simp [List.foldlM, hx, ih h]

lemma gradeRow_mem (subject : String) (acc : List GradeEntry)
    (r : List String) (e : GradeEntry) (he : e ∈ gradeRow subject acc r) :
    e ∈ acc ∨ e.subject = subject := by
  simp only [gradeRow] at he
  split at he
  · split at he
    · rcases List.mem_append.mp he with h' | h'
      · exact Or.inl h'
      · right
        simp at h'
        subst h'
        rfl
    · exact Or.inl he
  · exact Or.inl he

lemma gradeRow_foldl_mem (subject : String) (rows : List (List String))
    (acc : List GradeEntry) (e : GradeEntry)
    (he : e ∈ rows.foldl (gradeRow subject) acc) :
    e ∈ acc ∨ e.subject = subject := by
  induction rows generalizing acc with
  | nil => exact Or.inl he
  | cons r rest ih =>
      rcases ih (gradeRow subject acc r) he with h | h
      · exact gradeRow_mem subject acc r e h
      · exact Or.inr h

lemma foldl_count_sum (parse : GradeEntry → Option ℚ) (gs : List GradeEntry) :
    ∀ (t : ℚ) (c : Nat),
      gs.foldl
        (fun (tc : ℚ × Nat) g =>
          match parse g with
          | some v => (tc.1 + v, tc.2 + 1)
          | none => tc)
        (t, c)
      = (t + (gs.filterMap parse).sum, c + (gs.filterMap parse).length) := by
  induction gs with
  | nil => intro t c; simp
  | cons g rest ih =>
      intro t c
      cases hg : parse g with
      | none => simp [List.foldl_cons, hg, List.filterMap_cons, ih]
      | some v =>
          simp [List.foldl_cons, hg, List.filterMap_cons, ih (t + v) (c + 1),
            add_assoc]
          omega

/-- A data page whose absence table has a non-numeric "Fehltage" cell,
while the last-update and grades domains are well-formed. -/
def c1FailPage : DataPage :=
  { pageText := "Stand aktualisiert am 01.02.2024",
    elements := [
      Element.table { rawText := "Fehltage abc Unentschuldigte Fehltage 2",
                      headersTh := [],
                      rows := [["Fehltage", "abc"], ["Unentschuldigte Fehltage", "2"]] },
      Element.heading "Mathematik",
      Element.table { rawText := "Notentabelle",
                      headersTh := ["Datum", "Zensur", "Bemerkung"],
                      rows := [["01.02.2024", "2", "gut"]] } ] }

/-- C1: on a data page whose absence table has a "Fehltage" row with a
non-numeric second cell, the other two extraction domains would succeed
("01.02.2024" and one grade entry), yet the `int(...)` error is not caught
anywhere in `get_data`: the whole fetch aborts and returns no result at
all, instead of degrading the absence pass to its defaults. -/
theorem absence_nonnumeric_aborts_fetch :
    parseLastUpdate c1FailPage.pageText = "01.02.2024" ∧
    runGrades c1FailPage.elements =
      [{ subject := "Mathematik", date := "01.02.2024", grade := "2", comment := "gut" }] ∧
    extractData c1FailPage = none := by
  refine ⟨by decide, by decide, by decide⟩

/-- A login form whose single field is classified to the password role
under the name "passwort". -/
def c2ClassifiedForm : List InputTag :=
  [{ name := some "passwort", type := some "password", value := some "" }]

/-- C2 counterexample: the form's only field is successfully classified
(its name contains "pass", so it is assigned the password), yet the
fallback still force-inserts "username", "password" and "login" because
those literal keys are absent from the field map — refuting the claim
that a classified form receives no force-inserted fields. -/
theorem fallback_fires_despite_classification_cex :
    pyIn "pass" (pyLower "passwort") = true ∧
    buildFormData "alice" "secret" c2ClassifiedForm =
      [("passwort", "secret"), ("username", "alice"),
       ("password", "secret"), ("login", "Anmelden")] := by
  refine ⟨by decide, by decide⟩

/-- C2 amended: the fallback is three independent literal-key checks on
the POST field map, not a role-classification test: "username" (with the
username) is inserted iff neither key "username" nor key "user" is
present, "password" iff key "password" is absent, and "login" (value
"Anmelden") iff key "login" is absent — regardless of what classification
assigned. -/
theorem fallback_literal_key_spec (u p : String) (d : List (String × String)) :
    lookupKey (applyFallback u p d) "username" =
      (if hasKey d "username" = false ∧ hasKey d "user" = false then some u
       else lookupKey d "username") ∧
    lookupKey (applyFallback u p d) "password" =
      (if hasKey d "password" = false then some p else lookupKey d "password") ∧
    lookupKey (applyFallback u p d) "login" =
      (if hasKey d "login" = false then some "Anmelden" else lookupKey d "login") := by
  have e1 : (("username" : String) == "password") = false := by decide
  have e2 : (("username" : String) == "login") = false := by decide
  have e3 : (("password" : String) == "login") = false := by decide
  have n1 : ∀ (dd : List (String × String)) (v : String),
      lookupKey (dictInsert dd "password" v) "username" = lookupKey dd "username" :=
    fun dd v => lookupKey_dictInsert_ne dd _ v _ (by decide)
  have n2 : ∀ (dd : List (String × String)) (v : String),
      lookupKey (dictInsert dd "login" v) "username" = lookupKey dd "username" :=
    fun dd v => lookupKey_dictInsert_ne dd _ v _ (by decide)
  have n3 : ∀ (dd : List (String × String)) (v : String),
      lookupKey (dictInsert dd "login" v) "password" = lookupKey dd "password" :=
    fun dd v => lookupKey_dictInsert_ne dd _ v _ (by decide)
  have n4 : ∀ (dd : List (String × String)) (v : String),
      lookupKey (dictInsert dd "username" v) "password" = lookupKey dd "password" :=
    fun dd v => lookupKey_dictInsert_ne dd _ v _ (by decide)
  have n5 : ∀ (dd : List (String × String)) (v : String),
      lookupKey (dictInsert dd "username" v) "login" = lookupKey dd "login" :=
    fun dd v => lookupKey_dictInsert_ne dd _ v _ (by decide)
  have n6 : ∀ (dd : List (String × String)) (v : String),
      lookupKey (dictInsert dd "password" v) "login" = lookupKey dd "login" :=
    fun dd v => lookupKey_dictInsert_ne dd _ v _ (by decide)
  cases hu : hasKey d "username" <;> cases hus : hasKey d "user" <;>
    cases hp : hasKey d "password" <;> cases hl : hasKey d "login" <;>
      simp [applyFallback, hu, hus, hp, hl, hasKey_dictInsert, e1, e2, e3,
        n1, n2, n3, n4, n5, n6, lookupKey_dictInsert_self]

/-- C4: `authenticate`'s success signals are evaluated strictly in order:
a logout marker in the POST body yields `true` whatever the rest of the
body, the final URL or the follow-up page look like (so no follow-up GET
is needed); and the follow-up confirmation is reached exactly when the
body has no logout marker, none of the case-insensitive failure markers,
and the URL carries no `err=`/`error=` parameter — in which case the
follow-up page's logout marker alone decides. -/
theorem authenticate_ordered_signals (postText url : String) :
    ((pyIn "Abmelden" postText = true ∨ pyIn "Logout" postText = true) →
      ∀ t, authenticateResult postText url t = true) ∧
    (evalLoginResponse postText url = AuthDecision.followUp ↔
      (pyIn "Abmelden" postText = false ∧ pyIn "Logout" postText = false ∧
       pyIn "fehler" (pyLower postText) = false ∧
       pyIn "falsch" (pyLower postText) = false ∧
       pyIn "nicht erfolgreich" (pyLower postText) = false ∧
       pyIn "err=" url = false ∧ pyIn "error=" url = false)) ∧
    (evalLoginResponse postText url = AuthDecision.followUp →
      ∀ t, authenticateResult postText url t = checkLoggedIn t) := by
  refine ⟨?_, ?_, ?_⟩
  · intro h t
    rcases h with h | h <;> simp [authenticateResult, evalLoginResponse, h]
  · cases a1 : pyIn "Abmelden" postText <;>
      cases a2 : pyIn "Logout" postText <;>
        cases a3 : pyIn "fehler" (pyLower postText) <;>
          cases a4 : pyIn "falsch" (pyLower postText) <;>
            cases a5 : pyIn "nicht erfolgreich" (pyLower postText) <;>
              cases a6 : pyIn "err=" url <;>
                cases a7 : pyIn "error=" url <;>
                  simp [evalLoginResponse, a1, a2, a3, a4, a5, a6, a7]
  · intro h t
    simp [authenticateResult, h]

/-- C4 witness: a POST body carrying both the logout marker and a failure
marker, with an `err=` URL, still authenticates immediately. -/
theorem authenticate_ordered_signals_witness :
    authenticateResult "Fehler! Abmelden" "http://portal/default.php?err=1" "leer" = true :=
  (authenticate_ordered_signals "Fehler! Abmelden" "http://portal/default.php?err=1").1
    (Or.inl (by decide)) "leer"

/-- C5: the logged-in probe is true exactly when the fetched default page
contains the logout marker "Abmelden" or "Logout"; a page without those
markers — whatever else it lacks or contains — yields `false`. -/
theorem checkLoggedIn_strict_positive (t : String) :
    (checkLoggedIn t = true ↔
      (pyIn "Abmelden" t = true ∨ pyIn "Logout" t = true)) ∧
    (pyIn "Abmelden" t = false → pyIn "Logout" t = false →
      checkLoggedIn t = false) := by
  constructor
  · simp [checkLoggedIn]
  · intro h1 h2
    simp [checkLoggedIn, h1, h2]

/-- C5 witness: a generic maintenance page is reported as not logged in. -/
theorem checkLoggedIn_strict_positive_witness :
    checkLoggedIn "Wartungsarbeiten - bitte warten" = false :=
  (checkLoggedIn_strict_positive "Wartungsarbeiten - bitte warten").2
    (by decide) (by decide)

/-- C6: for a non-submit input whose name contains (case-insensitively)
a username-like token and "pass", the password rule wins: the field is
assigned the password. -/
theorem password_rule_precedence (u p : String) (d : List (String × String))
    (name : String) (ty v : Option String)
    (hn : name ≠ "")
    (hty : pyLower (ty.getD "") ≠ "submit")
    (_huser : pyIn "user" (pyLower name) = true ∨ pyIn "login" (pyLower name) = true)
    (hpass : pyIn "pass" (pyLower name) = true) :
    processInput u p d { name := some name, type := ty, value := v }
      = dictInsert d name p := by
  simp [processInput, hn, hty, hpass]

/-- C6 witness: the field named "UserPass" receives the password. -/
theorem password_rule_precedence_witness :
    processInput "u1" "pw1" [] { name := some "UserPass", type := some "text", value := some "x" }
      = dictInsert [] "UserPass" "pw1" :=
  password_rule_precedence "u1" "pw1" [] "UserPass" (some "text") (some "x")
    (by decide) (by decide) (Or.inl (by decide)) (by decide)

/-- C10: an input element without a name attribute is skipped entirely by
field classification — it changes nothing, and the POST field map of a
form equals that of the form with all nameless inputs removed. -/
theorem nameless_inputs_skipped :
    (∀ (u p : String) (d : List (String × String)) (tag : InputTag),
      tag.name = none → processInput u p d tag = d) ∧
    (∀ (u p : String) (inputs : List InputTag),
      buildFormData u p inputs
        = buildFormData u p (inputs.filter (fun t => t.name.isSome))) := by
  constructor
  · intro u p d tag h
    simp [processInput, h]
  · intro u p inputs
    have key : ∀ (l : List InputTag) (d : List (String × String)),
        l.foldl (processInput u p) d
          = (l.filter (fun t => t.name.isSome)).foldl (processInput u p) d := by
      intro l
      induction l with
      | nil => intro d; rfl
      | cons t rest ih =>
          intro d
          cases ht : t.name with
          | none => simp [List.filter_cons, ht, processInput, ih]
          | some nm => simp [List.filter_cons, ht, ih]
    simp [buildFormData, key]

/-- C10 witness: a nameless submit input with a declared value leaves the
field map untouched. -/
theorem nameless_inputs_skipped_witness :
    processInput "u" "p" [("a", "b")]
      { name := none, type := some "submit", value := some "Go" } = [("a", "b")] :=
  nameless_inputs_skipped.1 "u" "p" [("a", "b")]
    { name := none, type := some "submit", value := some "Go" } rfl

/-- C3 counterexample: with a current subject set, a table whose header
cells are exactly ["Zensur", "Datum der Note"] is NOT processed (the
check is Python list membership, i.e. whole-cell equality), while the
exact header cell "Datum" is — even though "Datum" is a substring of
"Datum der Note". -/
theorem grade_header_substring_cex :
    runGrades [Element.heading "Mathematik",
      Element.table { rawText := "", headersTh := ["Zensur", "Datum der Note"],
                      rows := [["01.02.2024", "2", "gut"]] }] = [] ∧
    runGrades [Element.heading "Mathematik",
      Element.table { rawText := "", headersTh := ["Zensur", "Datum"],
                      rows := [["01.02.2024", "2", "gut"]] }] =
      [{ subject := "Mathematik", date := "01.02.2024", grade := "2", comment := "gut" }] ∧
    pyIn "Datum" "Datum der Note" = true := by
  refine ⟨by decide, by decide, by decide⟩

/-- C3 amended: while a (non-empty) current subject is set, a table is
processed as a grade table if and only if its header-cell list contains
"Zensur" and "Datum" as whole cells (exact, case-sensitive equality —
not substring matching). -/
theorem grade_header_exact_match (s : String) (acc : List GradeEntry)
    (t : HTable) (hs : s ≠ "") :
    gradesStep (some s, acc) (Element.table t) =
      (if "Zensur" ∈ t.headersTh ∧ "Datum" ∈ t.headersTh
       then (some s, t.rows.foldl (gradeRow s) acc)
       else (some s, acc)) := by
  by_cases h1 : "Zensur" ∈ t.headersTh <;> by_cases h2 : "Datum" ∈ t.headersTh <;>
    simp [gradesStep, hs, h1, h2]

/-- C3 witness: the exact-header table of the counterexample is processed
into one grade row. -/
theorem grade_header_exact_match_witness :
    gradesStep (some "Mathematik", [])
      (Element.table { rawText := "", headersTh := ["Zensur", "Datum"],
                       rows := [["01.02.2024", "2", "gut"]] }) =
      (if "Zensur" ∈ (["Zensur", "Datum"] : List String)
          ∧ "Datum" ∈ (["Zensur", "Datum"] : List String)
       then (some "Mathematik",
             ([["01.02.2024", "2", "gut"]] : List (List String)).foldl
               (gradeRow "Mathematik") [])
       else (some "Mathematik", [])) :=
  grade_header_exact_match "Mathematik" []
    { rawText := "", headersTh := ["Zensur", "Datum"],
      rows := [["01.02.2024", "2", "gut"]] } (by decide)

/-- C7: processing a table never changes the subject cursor; a heading
moves the cursor exactly when its text is longer than 2 characters and
contains none of "Notenspiegel", "Endnoten", "Legende"; and every grade
entry a table adds while the cursor holds subject `s` is attributed to
`s` — so two tables after one heading are attributed to the same
subject. -/
theorem grades_cursor_behavior :
    (∀ (st : Option String × List GradeEntry) (t : HTable),
      (gradesStep st (Element.table t)).1 = st.1) ∧
    (∀ (st : Option String × List GradeEntry) (h : String),
      (gradesStep st (Element.heading h)).1 =
        (if 2 < h.length ∧ pyIn "Notenspiegel" h = false
            ∧ pyIn "Endnoten" h = false ∧ pyIn "Legende" h = false
         then some h else st.1)) ∧
    (∀ (s : String) (acc : List GradeEntry) (t : HTable) (e : GradeEntry),
      e ∈ (gradesStep (some s, acc) (Element.table t)).2 →
        e ∈ acc ∨ e.subject = s) := by
  refine ⟨?_, ?_, ?_⟩
  · intro st t
    rcases st with ⟨os, g⟩
    cases os with
    | none => rfl
    | some subj =>
        simp only [gradesStep]
        split
        · rfl
        · split
          · rfl
          · rfl
  · intro st h
    by_cases hc : 2 < h.length ∧ pyIn "Notenspiegel" h = false
        ∧ pyIn "Endnoten" h = false ∧ pyIn "Legende" h = false
    · simp [gradesStep, hc]
    · simp [gradesStep, hc]
  · intro s acc t e he
    by_cases hs : s = ""
    · simp [gradesStep, hs] at he
      exact Or.inl he
    · by_cases hz : (t.headersTh.contains "Zensur" && t.headersTh.contains "Datum") = true
      · simp only [gradesStep, if_neg hs, if_pos hz] at he
        exact gradeRow_foldl_mem s t.rows acc e he
      · simp only [gradesStep, if_neg hs, if_neg hz] at he
        exact Or.inl he

/-- C7 witness: a concrete grade row produced under the cursor
"Mathematik" is attributed to "Mathematik". -/
theorem grades_cursor_behavior_witness :
    ({ subject := "Mathematik", date := "01.02.2024", grade := "2",
       comment := "gut" } : GradeEntry) ∈ ([] : List GradeEntry) ∨
    ({ subject := "Mathematik", date := "01.02.2024", grade := "2",
       comment := "gut" } : GradeEntry).subject = "Mathematik" :=
  grades_cursor_behavior.2.2 "Mathematik" []
    { rawText := "Noten", headersTh := ["Zensur", "Datum"],
      rows := [["01.02.2024", "2", "gut"]] }
    { subject := "Mathematik", date := "01.02.2024", grade := "2", comment := "gut" }
    (by decide)

/-- C8 counterexample: the page text "aktualisiert am Connected" contains
the substring "aktualisiert am", yet the pass reports "Connected" — the
extracted token happens to be that literal — refuting the claimed
"if and only if". -/
theorem last_update_connected_iff_cex :
    parseLastUpdate "aktualisiert am Connected" = "Connected" ∧
    pyIn "aktualisiert am" "aktualisiert am Connected" = true := by
  refine ⟨by decide, by decide⟩

/-- C8 amended: the pass reports "Connected" whenever the page text lacks
"aktualisiert am"; when the substring is present it reports "Unknown" if
no whitespace token follows (the structural `IndexError`), and otherwise
the first token with quotes stripped and truncated at the first "<" —
which may coincidentally equal "Connected" or "Unknown". -/
theorem last_update_branch_spec (p : String) :
    (pyIn "aktualisiert am" p = false → parseLastUpdate p = "Connected") ∧
    (pyIn "aktualisiert am" p = true → tokensAfterUpdate p = [] →
      parseLastUpdate p = "Unknown") ∧
    (∀ (tok : String) (rest : List String), pyIn "aktualisiert am" p = true →
      tokensAfterUpdate p = tok :: rest → parseLastUpdate p = cleanToken tok) := by
  refine ⟨?_, ?_, ?_⟩
  · intro h
    simp [parseLastUpdate, h]
  · intro h h2
    simp [parseLastUpdate, h, h2]
  · intro tok rest h h2
    simp [parseLastUpdate, h, h2]

/-- C8 witness: a quoted timestamp token is extracted and cleaned. -/
theorem last_update_branch_spec_witness :
    parseLastUpdate "Stand aktualisiert am \"01.02.2024\" 10:15"
      = cleanToken "\"01.02.2024\"" :=
  (last_update_branch_spec "Stand aktualisiert am \"01.02.2024\" 10:15").2.2
    "\"01.02.2024\"" ["10:15"] (by decide) (by decide)

lemma subjectValue_eval (grades : List GradeEntry) (subject : String)
    (hne : numericVals grades subject ≠ []) :
    subjectNativeValue grades subject =
      some (pyRound2 ((numericVals grades subject).sum
        / ((numericVals grades subject).length : ℚ))) := by
  have hgs : subjectGrades grades subject ≠ [] := by
    intro h
    apply hne
    simp [numericVals, h]
  have hvals : (subjectGrades grades subject).filterMap gradeParse ≠ [] := by
    simpa [numericVals] using hne
  simp only [subjectNativeValue, if_neg hgs,
    foldl_count_sum gradeParse (subjectGrades grades subject) 0 0, zero_add]
  rw [if_neg]
  · simp [numericVals]
  · intro h
    exact hvals (List.length_eq_zero.mp h)

lemma subjectHistory_eval (grades : List GradeEntry) (subject : String)
    (h : subjectGrades grades subject ≠ []) :
    (extraStateAttributes grades subject).map SubjectAttributes.history =
      some (subjectGrades grades subject) := by
  rcases hgs : subjectGrades grades subject with _ | ⟨a, rest⟩
  · exact absurd hgs h
  · simp [extraStateAttributes, hgs]

/-- The three all-numeric Mathe grades 1, 1, 2 whose exact average 4/3 is
not representable at two decimal places. -/
def c9Grades : List GradeEntry :=
  [{ subject := "Mathe", date := "d1", grade := "1", comment := "" },
   { subject := "Mathe", date := "d2", grade := "1", comment := "" },
   { subject := "Mathe", date := "d3", grade := "2", comment := "" }]

/-- C9 counterexample: for grades 1, 1, 2 the sensor publishes 1.33
(= `round(4/3, 2)`), which is not the numeric average 4/3 of the parsed
entries — refuting "the published value equals the numeric average". -/
theorem subject_average_rounding_cex :
    subjectNativeValue c9Grades "Mathe" = some ((133 : ℚ)/100) ∧
    ((133 : ℚ)/100) ≠ ((1 : ℚ) + 1 + 2)/3 := by
  constructor
  · rw [subjectValue_eval c9Grades "Mathe" (by decide)]
    have hv : numericVals c9Grades "Mathe" = [(1 : ℚ), 1, 2] := by
      have g1 : gradeParse { subject := "Mathe", date := "d1", grade := "1", comment := "" }
          = some ((natOfDigits ['1'] : ℚ) + (natOfDigits ([] : List Char) : ℚ)
              / (10 : ℚ) ^ (0 : ℕ)) := rfl
      have g2 : gradeParse { subject := "Mathe", date := "d2", grade := "1", comment := "" }
          = some ((natOfDigits ['1'] : ℚ) + (natOfDigits ([] : List Char) : ℚ)
              / (10 : ℚ) ^ (0 : ℕ)) := rfl
      have g3 : gradeParse { subject := "Mathe", date := "d3", grade := "2", comment := "" }
          = some ((natOfDigits ['2'] : ℚ) + (natOfDigits ([] : List Char) : ℚ)
              / (10 : ℚ) ^ (0 : ℕ)) := rfl
      have c1 : Char.toNat '1' = 49 := by decide
      have c2 : Char.toNat '2' = 50 := by decide
      simp [numericVals, subjectGrades, c9Grades, List.filterMap_cons, g1, g2, g3,
        natOfDigits, c1, c2]
    rw [hv]
    have h1 : ([(1 : ℚ), 1, 2].sum) = 4 := by norm_num
    have h2 : (([(1 : ℚ), 1, 2].length) : ℚ) = 3 := by norm_num
    rw [h1, h2]
    have hfl : ⌊((4 : ℚ)/3) * 100⌋ = 133 := by
      rw [show ((4 : ℚ)/3) * 100 = 400/3 by norm_num]
      rw [Int.floor_eq_iff]
      constructor <;> norm_num
    have hc : ((4 : ℚ)/3) * 100 - ((133 : ℤ) : ℚ) < 1/2 := by norm_num
    simp only [pyRound2, roundHalfEven, hfl]
    rw [if_pos hc]
    norm_num
  · norm_num

/-- C9 amended: the published value is the numeric average — rounded half
to even at 2 decimal places — of exactly those entries under the subject
whose grade text (with "," normalized to ".") parses as a plain decimal
number; non-numeric entries are excluded from the average but retained,
with all others, in the history attribute of that subject's entry. -/
theorem subject_average_rounded_spec (grades : List GradeEntry) (subject : String)
    (hne : numericVals grades subject ≠ []) :
    subjectNativeValue grades subject =
      some (pyRound2 ((numericVals grades subject).sum
        / ((numericVals grades subject).length : ℚ))) ∧
    (extraStateAttributes grades subject).map SubjectAttributes.history =
      some (subjectGrades grades subject) := by
  have hgs : subjectGrades grades subject ≠ [] := by
    intro h
    apply hne
    simp [numericVals, h]
  exact ⟨subjectValue_eval grades subject hne, subjectHistory_eval grades subject hgs⟩

/-- Deutsch grades with one non-numeric entry ("gut") and a
comma-decimal entry ("1,5"). -/
def c9WitnessGrades : List GradeEntry :=
  [{ subject := "Deutsch", date := "01.03.2024", grade := "2", comment := "Aufsatz" },
   { subject := "Deutsch", date := "15.02.2024", grade := "gut", comment := "" },
   { subject := "Deutsch", date := "01.02.2024", grade := "1,5", comment := "" }]

/-- C9 witness: the average skips the non-numeric "gut" while the history
attribute keeps all three entries. -/
theorem subject_average_rounded_spec_witness :
    subjectNativeValue c9WitnessGrades "Deutsch" =
      some (pyRound2 ((numericVals c9WitnessGrades "Deutsch").sum
        / ((numericVals c9WitnessGrades "Deutsch").length : ℚ))) ∧
    (extraStateAttributes c9WitnessGrades "Deutsch").map SubjectAttributes.history =
      some (subjectGrades c9WitnessGrades "Deutsch") :=
  subject_average_rounded_spec c9WitnessGrades "Deutsch" (by decide)
